import Mathlib

/-!
Shallow embedding of `src/providers/lightning_address_provider.py` (BoostCLI).

The Python module resolves a Lightning Address (`user@domain`) either to a
keysend pubkey record or, via the two-step LNURL-pay flow, to an invoice.
The HTTP transport is an injected callable; we model it as a function from
an `HttpCall` record to a `TransportResult` (either a raised
`requests.exceptions.RequestException`, or a response exposing its body text
and the outcome of its `.json()` parse).

Python dynamic-typing behaviour is modelled explicitly: JSON values are a
`Json` inductive (numbers restricted to integers, since every amount in the
protocol is an integral number of millisatoshis; Python `None` and JSON
`null` coincide as `Json.null`), `dict.get` on a non-dict raises
`AttributeError`, ordering comparisons between an `int` and a non-numeric
value raise `TypeError`, and the membership test `x in y` raises `TypeError`
on non-iterable values.  Each resolution flow therefore returns
`Except PyErr (Option result)` — `.error` is an uncaught Python exception
escaping to the caller — paired with the ordered list of HTTP calls it made.
-/

/-- JSON values as produced by Python's json parsing, with numbers restricted
to integers (all protocol amounts are integral msats).  `Json.null` also
stands for Python `None`, which is what `json.loads` produces for `null`. -/
inductive Json where
  | null
  | bool (b : Bool)
  | int (n : Int)
  | str (s : String)
  | arr (elems : List Json)
  | obj (fields : List (String × Json))

/-- Uncaught Python exceptions that can escape the resolver. -/
inductive PyErr where
  | attributeError
  | typeError
deriving DecidableEq

/-- Callback query parameters built by `resolve_lnurlp` (`params` dict):
`amount` always present, `name` and `comment` optional. -/
structure CallbackParams where
  amount : Int
  name : Option String
  comment : Option String
deriving DecidableEq

/-- One invocation of the injected `requester` callable: method, URL (a raw
Python value — the callback URL is whatever JSON value discovery returned),
optional query parameters, and the timeout. -/
structure HttpCall where
  method : String
  url : Json
  params : Option CallbackParams
  timeout : Int

/-- Behaviour of the injected transport on one call: either it raises a
`requests.exceptions.RequestException`, or it returns a response exposing
body text and the result of its `.json()` parse. -/
inductive TransportResult where
  | raise
  | ok (text : String) (json : Except Unit Json)

/-- The frozen `LightningAddressProvider` dataclass: an injected requester and
a timeout (default 10). -/
structure LightningAddressProvider where
  requester : HttpCall → TransportResult
  timeout : Int

/-- Python `"@" in s` for the single-character needle: membership test. -/
def containsAt (s : String) : Bool :=
  s.data.any (fun c => c == '@')

/-- Number of `@` characters in a string (used to state the parsing claims). -/
def countAtSigns (s : String) : Nat :=
  s.data.count '@'

/-- Character-level `split("@", 1)`: everything before the first `@`, and
everything after it (further `@`s stay in the second part). -/
def splitAtList (l : List Char) : List Char × List Char :=
  match l with
  | [] => ([], [])
  | c :: cs =>
    if c = '@' then ([], cs)
    else ((splitAtList cs).1.cons c, (splitAtList cs).2)

/-- Python `s.split("@", 1)` unpacked as `(username, domain)` — the code only
reaches it when `@` is present, so the two-element unpacking always succeeds. -/
def splitFirstAt (s : String) : String × String :=
  (⟨(splitAtList s.data).1⟩, ⟨(splitAtList s.data).2⟩)

/-- Whitespace characters recognised by Python `str.strip()` (ASCII set). -/
def isPySpaceChar (c : Char) : Bool :=
  c == ' ' || c == '\t' || c == '\n' || c == '\r' || c == '\x0b' || c == '\x0c'

/-- Python `not text or not text.strip()`: the body is empty or whitespace. -/
def isBlank (s : String) : Bool :=
  s.data.all isPySpaceChar

/-- Shared response handling of both flows: a raised transport exception, an
empty/whitespace body, or a JSON decode failure all collapse to `none`
(`return None` in the source); otherwise the parsed JSON value. -/
def parseBody (t : TransportResult) : Option Json :=
  match t with
  | .raise => none
  | .ok text jr => if isBlank text then none else jr.toOption

/-- Lookup in a parsed JSON object.  Python dicts built by `json.loads` keep
the last binding of a duplicated key, hence the `reverse`. -/
def objLookup (fields : List (String × Json)) (k : String) : Option Json :=
  ((fields.reverse).find? (fun p => p.1 == k)).map (fun p => p.2)

/-- Python `d.get(k, default)` on a dict known to be a dict. -/
def objGetD (fields : List (String × Json)) (k : String) (d : Json) : Json :=
  (objLookup fields k).getD d

/-- Python `v == "lit"` for a string literal: only equal strings compare equal
(no other JSON value equals a `str`). -/
def pyEqStr (j : Json) (s : String) : Bool :=
  match j with
  | .str t => t == s
  | _ => false

/-- Python truthiness of a JSON value (`if not v`). -/
def pyTruthy (j : Json) : Bool :=
  match j with
  | .null => false
  | .bool b => b
  | .int n => n != 0
  | .str s => s != ""
  | .arr xs => !xs.isEmpty
  | .obj fs => !fs.isEmpty

/-- Whether `pat` occurs at the head of `l`. -/
def headMatches (l pat : List Char) : Bool :=
  match l, pat with
  | _, [] => true
  | [], _ :: _ => false
  | a :: as, b :: bs => a == b && headMatches as bs

/-- Whether `pat` occurs as a contiguous run inside `l` (Python substring
containment `pat in s`). -/
def containsSub (l pat : List Char) : Bool :=
  match l with
  | [] => pat.isEmpty
  | _ :: t => headMatches l pat || containsSub t pat

/-- Python `k in v` for a string key: dict key membership, substring test on
strings, element equality on lists; `TypeError` on non-iterable values. -/
def pyContains (j : Json) (k : String) : Except PyErr Bool :=
  match j with
  | .obj fs => .ok (fs.any (fun p => p.1 == k))
  | .str s => .ok (containsSub s.data k.data)
  | .arr xs => .ok (xs.any (fun x => pyEqStr x k))
  | _ => .error .typeError

/-- Numeric view of a JSON value for Python ordering comparisons: ints are
themselves, bools coerce (`True == 1`); everything else is non-numeric and
makes an ordering comparison with an `int` raise `TypeError`. -/
def jsonAsNum (j : Json) : Option Int :=
  match j with
  | .int n => some n
  | .bool b => some (if b then 1 else 0)
  | _ => none

/-- Python `a < j` with `a : int` and `j` an arbitrary value. -/
def pyLtJson (a : Int) (j : Json) : Except PyErr Bool :=
  match jsonAsNum j with
  | some n => .ok (decide (a < n))
  | none => .error .typeError

/-- Python `a > j` with `a : int` and `j` an arbitrary value. -/
def pyGtJson (a : Int) (j : Json) : Except PyErr Bool :=
  match jsonAsNum j with
  | some n => .ok (decide (n < a))
  | none => .error .typeError

/-- Python `j > 0` for the `commentAllowed` guard. -/
def pyGtZero (j : Json) : Except PyErr Bool :=
  match jsonAsNum j with
  | some n => .ok (decide (0 < n))
  | none => .error .typeError

/-- Python `message[:n]` where `n` is the (numeric, positive — the guard has
already passed) `commentAllowed` value: a character-level cut. -/
def pySliceStr (message : String) (n : Json) : String :=
  match n with
  | .int k => ⟨message.data.take k.toNat⟩
  | .bool _ => ⟨message.data.take 1⟩
  | _ => message

/-- Result record of the keysend flow (the frozen `KeysendResponse`
dataclass).  The fields hold whatever JSON values `data.get` produced —
`pubkey` is `null` when the field is absent, `custom_data` defaults to the
empty list. -/
structure KeysendResponse where
  pubkey : Json
  custom_data : Json

/-- Result record of the lnurlp flow (the frozen `LnurlpResponse` dataclass):
the `pr` value of the callback response. -/
structure LnurlpResponse where
  invoice : Json

/-- Lines 51–57 of the source: validate `status`/`tag` of the parsed keysend
discovery body and build the result.  `data.get(...)` raises
`AttributeError` when the parsed body is not a JSON object. -/
def keysendFromJson (j : Json) : Except PyErr (Option KeysendResponse) :=
  match j with
  | .obj fs =>
    if (!pyEqStr (objGetD fs "status" .null) "OK")
        || (!pyEqStr (objGetD fs "tag" .null) "keysend") then
      .ok none
    else
      .ok (some { pubkey := objGetD fs "pubkey" .null
                  custom_data := objGetD fs "customData" (.arr []) })
  | _ => .error .attributeError

/-- Lines 88–92 of the source: `minSendable` defaults to `0`, `maxSendable`
to `float('inf')` (the absent case, never exceeded).  Result is `true` when
the amount passes, `false` when the flow must return `None`; comparing the
amount with a non-numeric bound raises `TypeError`, the left comparison
first (Python `or` short-circuits). -/
def lnurlpBoundsOk (fs : List (String × Json)) (amount_msats : Int) :
    Except PyErr Bool :=
  match pyLtJson amount_msats (objGetD fs "minSendable" (.int 0)) with
  | .error e => .error e
  | .ok true => .ok false
  | .ok false =>
    match objLookup fs "maxSendable" with
    | none => .ok true
    | some j =>
      match pyGtJson amount_msats j with
      | .error e => .error e
      | .ok b => .ok (!b)

/-- Lines 97–99 of the source: the `name` parameter is added only when
`sender_name` is truthy (the `in` test is then evaluated, and raises
`TypeError` on a non-iterable `payerData`) and `"name" in payer_data`. -/
def lnurlpNameParam (payer_data : Json) (sender_name : String) :
    Except PyErr (Option String) :=
  if sender_name = "" then .ok none
  else
    match pyContains payer_data "name" with
    | .error e => .error e
    | .ok b => .ok (if b then some sender_name else none)

/-- Lines 101–103 of the source: `payer_data.get("commentAllowed", 0)` is
evaluated unconditionally (AttributeError on a non-dict `payerData`); the
comment is added only when `message` is truthy and `commentAllowed > 0`,
truncated by slicing. -/
def lnurlpCommentParam (payer_data : Json) (message : String) :
    Except PyErr (Option String) :=
  match payer_data with
  | .obj ps =>
    let ca := objGetD ps "commentAllowed" (.int 0)
    if message = "" then .ok none
    else
      match pyGtZero ca with
      | .error e => .error e
      | .ok false => .ok none
      | .ok true => .ok (some (pySliceStr message ca))
  | _ => .error .attributeError

/-- Lines 79–103 of the source: validation of the parsed lnurlp discovery
body and construction of the callback parameters.  `none` is the
short-circuit `return None`; `some (callback_url, params)` means the flow
proceeds to the callback request. -/
def lnurlpFromJson (j : Json) (amount_msats : Int)
    (sender_name message : String) :
    Except PyErr (Option (Json × CallbackParams)) :=
  match j with
  | .obj fs =>
    if !pyEqStr (objGetD fs "tag" .null) "payRequest" then .ok none
    else
      let callback_url := objGetD fs "callback" .null
      if !pyTruthy callback_url then .ok none
      else
        match lnurlpBoundsOk fs amount_msats with
        | .error e => .error e
        | .ok false => .ok none
        | .ok true =>
          let payer_data := objGetD fs "payerData" (.obj [])
          match lnurlpNameParam payer_data sender_name with
          | .error e => .error e
          | .ok nm =>
            match lnurlpCommentParam payer_data message with
            | .error e => .error e
            | .ok cm =>
              .ok (some (callback_url,
                { amount := amount_msats, name := nm, comment := cm }))
  | _ => .error .attributeError

/-- Lines 120–131 of the source: extract a truthy `pr` from the parsed
callback body; `.get` raises `AttributeError` on a non-object body. -/
def prFromJson (j : Json) : Except PyErr (Option LnurlpResponse) :=
  match j with
  | .obj fs =>
    let invoice := objGetD fs "pr" .null
    if pyTruthy invoice then .ok (some { invoice := invoice }) else .ok none
  | _ => .error .attributeError

/-- The keysend discovery request: lines 34–37 of the source.  The URL is the
f-string `https://{domain}/.well-known/keysend/{username}` with both parts
inserted verbatim. -/
def keysendCall (p : LightningAddressProvider) (lightning_address : String) :
    HttpCall :=
  { method := "GET"
    url := .str ("https://" ++ (splitFirstAt lightning_address).2
      ++ "/.well-known/keysend/" ++ (splitFirstAt lightning_address).1)
    params := none
    timeout := p.timeout }

/-- The lnurlp discovery request: lines 63–67 of the source. -/
def lnurlpDiscoveryCall (p : LightningAddressProvider)
    (lightning_address : String) : HttpCall :=
  { method := "GET"
    url := .str ("https://" ++ (splitFirstAt lightning_address).2
      ++ "/.well-known/lnurlp/" ++ (splitFirstAt lightning_address).1)
    params := none
    timeout := p.timeout }

/-- The lnurlp callback request: lines 106–112 of the source. -/
def lnurlpCallbackCall (p : LightningAddressProvider) (callback_url : Json)
    (params : CallbackParams) : HttpCall :=
  { method := "GET", url := callback_url, params := some params
    timeout := p.timeout }

/-- `LightningAddressProvider.resolve_keysend`, returning the outcome (result,
`none`, or an uncaught exception) together with the HTTP calls performed. -/
def resolve_keysend (p : LightningAddressProvider)
    (lightning_address : String) :
    Except PyErr (Option KeysendResponse) × List HttpCall :=
  if containsAt lightning_address = false then (.ok none, [])
  else
    match parseBody (p.requester (keysendCall p lightning_address)) with
    | none => (.ok none, [keysendCall p lightning_address])
    | some data => (keysendFromJson data, [keysendCall p lightning_address])

/-- `LightningAddressProvider.resolve_lnurlp`, returning the outcome together
with the HTTP calls performed (discovery, then possibly the callback). -/
def resolve_lnurlp (p : LightningAddressProvider)
    (lightning_address : String) (amount_msats : Int)
    (sender_name message : String) :
    Except PyErr (Option LnurlpResponse) × List HttpCall :=
  if containsAt lightning_address = false then (.ok none, [])
  else
    match parseBody (p.requester (lnurlpDiscoveryCall p lightning_address)) with
    | none => (.ok none, [lnurlpDiscoveryCall p lightning_address])
    | some lnurl_data =>
      match lnurlpFromJson lnurl_data amount_msats sender_name message with
      | .error e => (.error e, [lnurlpDiscoveryCall p lightning_address])
      | .ok none => (.ok none, [lnurlpDiscoveryCall p lightning_address])
      | .ok (some (callback_url, params)) =>
        match parseBody
            (p.requester (lnurlpCallbackCall p callback_url params)) with
        | none => (.ok none,
            [lnurlpDiscoveryCall p lightning_address,
             lnurlpCallbackCall p callback_url params])
        | some callback_data => (prFromJson callback_data,
            [lnurlpDiscoveryCall p lightning_address,
             lnurlpCallbackCall p callback_url params])

/-- Canned transport for testing the lnurlp flow: the discovery request (no
query parameters) is answered with body `d`, the callback request with
`{"pr": "inv"}`. -/
def stubTransport (d : Json) : HttpCall → TransportResult := fun c =>
  match c.params with
  | none => .ok "x" (.ok d)
  | some _ => .ok "x" (.ok (.obj [("pr", .str "inv")]))

/-- Transport answering every request with the same parsed JSON body. -/
def constTransport (j : Json) : HttpCall → TransportResult :=
  fun _ => .ok "x" (.ok j)

/-- A payRequest discovery body declaring both amount bounds. -/
def boundedDiscovery (m M : Int) : Json :=
  .obj [("tag", .str "payRequest"), ("callback", .str "https://x/cb"),
        ("minSendable", .int m), ("maxSendable", .int M)]

/-- A payRequest discovery body carrying a payerData object and no amount
bounds (so every nonnegative amount is in range). -/
def payerDiscovery (pd : List (String × Json)) : Json :=
  .obj [("tag", .str "payRequest"), ("callback", .str "https://x/cb"),
        ("payerData", .obj pd)]

/-- The field `k` of a parsed object, when present, is numeric (an int or a
bool) — the shapes on which Python ordering comparisons cannot raise. -/
def SafeNumField (fs : List (String × Json)) (k : String) : Prop :=
  ∀ j, objLookup fs k = some j → (jsonAsNum j).isSome = true

/-- A parsed body on which the resolver's field accesses cannot raise: a JSON
object whose `minSendable`/`maxSendable` are numeric when present, and whose
`payerData`, when present, is an object with numeric `commentAllowed` when
present. -/
def SafeBody (j : Json) : Prop :=
  ∃ fs, j = .obj fs ∧ SafeNumField fs "minSendable" ∧
    SafeNumField fs "maxSendable" ∧
    ∀ pj, objLookup fs "payerData" = some pj →
      ∃ ps, pj = .obj ps ∧ SafeNumField ps "commentAllowed"

/-! ### Helper lemmas -/

/-- A parsed body comes from a non-raising transport result with a
successfully parsed JSON value. -/
theorem parseBody_eq_some {t : TransportResult} {j : Json}
    (h : parseBody t = some j) : ∃ s, t = .ok s (.ok j) := by
  cases t with
  | raise => simp [parseBody] at h
  | ok text jr =>
    unfold parseBody at h
    by_cases hb : isBlank text = true
    · simp [hb] at h
    · simp only [hb, if_neg, Bool.not_eq_true, if_false] at h
      cases jr with
      | error e => simp [Except.toOption] at h
      | ok j' =>
        simp [Except.toOption] at h
        exact ⟨text, by rw [h]⟩

/-- The keysend validation step never raises on an object body. -/
theorem keysendFromJson_obj_ok (fs : List (String × Json)) :
    ∃ r, keysendFromJson (.obj fs) = .ok r := by
  unfold keysendFromJson
  by_cases hc : ((!pyEqStr (objGetD fs "status" .null) "OK")
      || (!pyEqStr (objGetD fs "tag" .null) "keysend")) = true
  · exact ⟨none, by simp [hc]⟩
  · exact ⟨some ⟨objGetD fs "pubkey" .null, objGetD fs "customData" (.arr [])⟩,
      by simp [hc]⟩

/-- The invoice extraction step never raises on an object body. -/
theorem prFromJson_obj_ok (fs : List (String × Json)) :
    ∃ r, prFromJson (.obj fs) = .ok r := by
  unfold prFromJson
  by_cases hc : pyTruthy (objGetD fs "pr" .null) = true
  · exact ⟨some ⟨objGetD fs "pr" .null⟩, by simp [hc]⟩
  · exact ⟨none, by simp [hc]⟩

/-- A numeric value makes `pyLtJson` return rather than raise. -/
theorem pyLtJson_ok (a : Int) (j : Json) (h : (jsonAsNum j).isSome = true) :
    ∃ b, pyLtJson a j = .ok b := by
  unfold pyLtJson
  cases hn : jsonAsNum j with
  | none => rw [hn] at h; simp at h
  | some n => exact ⟨decide (a < n), rfl⟩

/-- A numeric value makes `pyGtJson` return rather than raise. -/
theorem pyGtJson_ok (a : Int) (j : Json) (h : (jsonAsNum j).isSome = true) :
    ∃ b, pyGtJson a j = .ok b := by
  unfold pyGtJson
  cases hn : jsonAsNum j with
  | none => rw [hn] at h; simp at h
  | some n => exact ⟨decide (n < a), rfl⟩

/-- A numeric value makes `pyGtZero` return rather than raise. -/
theorem pyGtZero_ok (j : Json) (h : (jsonAsNum j).isSome = true) :
    ∃ b, pyGtZero j = .ok b := by
  unfold pyGtZero
  cases hn : jsonAsNum j with
  | none => rw [hn] at h; simp at h
  | some n => exact ⟨decide (0 < n), rfl⟩

/-- Reading a safe numeric field with an integer default yields a numeric
value. -/
theorem objGetD_num (fs : List (String × Json)) (k : String)
    (h : SafeNumField fs k) (n : Int) :
    (jsonAsNum (objGetD fs k (.int n))).isSome = true := by
  unfold objGetD
  cases hl : objLookup fs k with
  | none => simp [jsonAsNum]
  | some j => simpa using h j hl

/-- The amount-bounds step never raises when the declared bounds are
numeric. -/
theorem lnurlpBoundsOk_ok (fs : List (String × Json)) (a : Int)
    (hmin : SafeNumField fs "minSendable")
    (hmax : SafeNumField fs "maxSendable") :
    ∃ b, lnurlpBoundsOk fs a = .ok b := by
  unfold lnurlpBoundsOk
  obtain ⟨b1, hb1⟩ := pyLtJson_ok a _ (objGetD_num fs "minSendable" hmin 0)
  rw [hb1]
  cases b1 with
  | true => exact ⟨false, rfl⟩
  | false =>
    cases hl : objLookup fs "maxSendable" with
    | none => exact ⟨true, rfl⟩
    | some j =>
      obtain ⟨b2, hb2⟩ := pyGtJson_ok a j (by simpa using hmax j hl)
      exact ⟨!b2, by dsimp only; rw [hb2]⟩

/-- The name-parameter step never raises on an object payerData. -/
theorem lnurlpNameParam_ok (ps : List (String × Json)) (sender_name : String) :
    ∃ o, lnurlpNameParam (.obj ps) sender_name = .ok o := by
  unfold lnurlpNameParam
  by_cases hs : sender_name = ""
  · exact ⟨none, by simp [hs]⟩
  · exact ⟨if ps.any (fun p => p.1 == "name") then some sender_name else none,
      by simp [hs, pyContains]⟩

/-- The comment-parameter step never raises on an object payerData with a
numeric `commentAllowed`. -/
theorem lnurlpCommentParam_ok (ps : List (String × Json)) (message : String)
    (h : SafeNumField ps "commentAllowed") :
    ∃ o, lnurlpCommentParam (.obj ps) message = .ok o := by
  unfold lnurlpCommentParam
  by_cases hm : message = ""
  · exact ⟨none, by simp [hm]⟩
  · obtain ⟨b, hb⟩ := pyGtZero_ok _ (objGetD_num ps "commentAllowed" h 0)
    simp only [hm, if_neg, if_false, hb]
    cases b with
    | true =>
      exact ⟨some (pySliceStr message (objGetD ps "commentAllowed" (.int 0))),
        by simp⟩
    | false => exact ⟨none, by simp⟩

/-- The lnurlp validation/params step never raises on a safe body. -/
theorem lnurlpFromJson_ok (j : Json) (a : Int) (nm msg : String)
    (h : SafeBody j) : ∃ r, lnurlpFromJson j a nm msg = .ok r := by
  obtain ⟨fs, rfl, hmin, hmax, hpd⟩ := h
  unfold lnurlpFromJson
  cases htag : pyEqStr (objGetD fs "tag" .null) "payRequest" with
  | false => exact ⟨none, by simp [htag]⟩
  | true =>
    cases hcb : pyTruthy (objGetD fs "callback" .null) with
    | false => exact ⟨none, by simp [htag, hcb]⟩
    | true =>
      obtain ⟨b, hb⟩ := lnurlpBoundsOk_ok fs a hmin hmax
      have hps : ∃ ps, objGetD fs "payerData" (.obj []) = .obj ps ∧
          SafeNumField ps "commentAllowed" := by
        unfold objGetD
        cases hl : objLookup fs "payerData" with
        | none =>
          refine ⟨[], rfl, ?_⟩
          intro x hx
          simp [objLookup] at hx
        | some pj =>
          obtain ⟨ps, hpe, hca⟩ := hpd pj hl
          exact ⟨ps, by simpa using hpe, hca⟩
      obtain ⟨ps, hpe, hca⟩ := hps
      simp only [htag, hcb, Bool.not_true, if_neg, if_false, hb, hpe]
      cases b with
      | false => exact ⟨none, by simp⟩
      | true =>
        obtain ⟨o1, ho1⟩ := lnurlpNameParam_ok ps nm
        obtain ⟨o2, ho2⟩ := lnurlpCommentParam_ok ps msg hca
        simp only [ho1, ho2]
        exact ⟨some (objGetD fs "callback" .null, ⟨a, o1, o2⟩), by simp⟩

/-- `split("@", 1)` on a char list whose head part has no `@` cuts exactly at
the first `@`. -/
theorem splitAtList_append (u d : List Char)
    (h : u.any (fun c => c == '@') = false) :
    splitAtList (u ++ '@' :: d) = (u, d) := by
  induction u with
  | nil => simp [splitAtList]
  | cons c cs ih =>
    simp only [List.any_cons, Bool.or_eq_false_iff] at h
    have hc : ¬ c = '@' := by
      intro he
      rw [he] at h
      simp at h
    simp [splitAtList, hc, ih h.2]


/-- The data of `u ++ "@" ++ d` is the two char lists around a literal `@`. -/
theorem data_append_at (u d : String) :
    (u ++ "@" ++ d).data = u.data ++ '@' :: d.data := by
  rw [String.data_append, String.data_append, List.append_assoc]
  rfl

/-- `splitFirstAt` on `u ++ "@" ++ d` with `@`-free `u` returns `(u, d)`. -/
theorem splitFirstAt_append (u d : String) (h : containsAt u = false) :
    splitFirstAt (u ++ "@" ++ d) = (u, d) := by
  unfold splitFirstAt
  rw [data_append_at,
    splitAtList_append u.data d.data (by simpa [containsAt] using h)]

/-- An address of the form `u ++ "@" ++ d` contains an `@`. -/
theorem containsAt_append (u d : String) :
    containsAt (u ++ "@" ++ d) = true := by
  unfold containsAt
  rw [data_append_at]
  simp

/-- When the address contains an `@`, the keysend flow performs exactly the
discovery request, whatever the transport does. -/
theorem resolve_keysend_trace (p : LightningAddressProvider) (addr : String)
    (h : containsAt addr = true) :
    (resolve_keysend p addr).2 = [keysendCall p addr] := by
  unfold resolve_keysend
  cases hpb : parseBody (p.requester (keysendCall p addr)) with
  | none => simp [h, hpb]
  | some data => simp [h, hpb]

/-- When the address contains an `@`, the lnurlp flow's first request is the
discovery request, whatever the transport does. -/
theorem resolve_lnurlp_trace_cons (p : LightningAddressProvider)
    (addr : String) (a : Int) (nm msg : String)
    (h : containsAt addr = true) :
    ∃ rest, (resolve_lnurlp p addr a nm msg).2
      = lnurlpDiscoveryCall p addr :: rest := by
  unfold resolve_lnurlp
  cases hpb : parseBody (p.requester (lnurlpDiscoveryCall p addr)) with
  | none => exact ⟨[], by simp [h, hpb]⟩
  | some data =>
    cases hlp : lnurlpFromJson data a nm msg with
    | error e => exact ⟨[], by simp [h, hpb, hlp]⟩
    | ok o =>
      cases o with
      | none => exact ⟨[], by simp [h, hpb, hlp]⟩
      | some pr =>
        obtain ⟨cb, ps⟩ := pr
        cases hpb2 : parseBody (p.requester (lnurlpCallbackCall p cb ps)) with
        | none =>
          exact ⟨[lnurlpCallbackCall p cb ps], by simp [h, hpb, hlp, hpb2]⟩
        | some cbd =>
          exact ⟨[lnurlpCallbackCall p cb ps], by simp [h, hpb, hlp, hpb2]⟩

/-! ### Claim theorems -/

/-- Claim C5: for every address without an `@`, both operations return the
`none` sentinel and the injected transport is never invoked (the list of
performed HTTP calls is empty). -/
theorem no_at_sign_no_network (p : LightningAddressProvider) (addr : String)
    (a : Int) (nm msg : String) (h : containsAt addr = false) :
    resolve_keysend p addr = (.ok none, []) ∧
    resolve_lnurlp p addr a nm msg = (.ok none, []) := by
  constructor
  · simp [resolve_keysend, h]
  · simp [resolve_lnurlp, h]

/-- Witness for C5 at the concrete address `nodomain`. -/
theorem no_at_sign_no_network_witness :
    resolve_keysend ⟨fun _ => .raise, 10⟩ "nodomain" = (.ok none, []) ∧
    resolve_lnurlp ⟨fun _ => .raise, 10⟩ "nodomain" 5 "a" "b"
      = (.ok none, []) :=
  no_at_sign_no_network ⟨fun _ => .raise, 10⟩ "nodomain" 5 "a" "b" (by decide)

/-- Claim C9: with the injected requester a fixed deterministic function, both
operations are deterministic — transports answering every call identically
produce identical outcomes and identical call traces, so the result depends
only on the arguments and the transport's responses. -/
theorem resolver_deterministic (T1 T2 : HttpCall → TransportResult)
    (tmo : Int) (addr : String) (a : Int) (nm msg : String)
    (h : ∀ c, T1 c = T2 c) :
    resolve_keysend ⟨T1, tmo⟩ addr = resolve_keysend ⟨T2, tmo⟩ addr ∧
    resolve_lnurlp ⟨T1, tmo⟩ addr a nm msg
      = resolve_lnurlp ⟨T2, tmo⟩ addr a nm msg := by
  have hT : T1 = T2 := funext h
  subst hT
  exact ⟨rfl, rfl⟩

/-- Witness for C9 at two syntactically distinct but pointwise equal
transports. -/
theorem resolver_deterministic_witness :
    resolve_keysend ⟨fun _ => .raise, 10⟩ "u@d"
      = resolve_keysend ⟨fun c => if c.timeout = c.timeout then .raise
          else .ok "" (.error ()), 10⟩ "u@d" ∧
    resolve_lnurlp ⟨fun _ => .raise, 10⟩ "u@d" 1 "n" "m"
      = resolve_lnurlp ⟨fun c => if c.timeout = c.timeout then .raise
          else .ok "" (.error ()), 10⟩ "u@d" 1 "n" "m" :=
  resolver_deterministic _ _ 10 "u@d" 1 "n" "m" (fun c => by simp)

/-- Counterexample to claim C6: the address `a@b@c` contains two `@`
characters, yet the keysend flow does not short-circuit at parsing — the
transport is invoked (the claim asserts any input without exactly one `@`
short-circuits to `none` before any request). -/
theorem two_at_signs_still_resolves :
    countAtSigns "a@b@c" = 2 ∧
    (resolve_keysend ⟨fun _ => .raise, 10⟩ "a@b@c").2 ≠ [] := by
  refine ⟨by decide, ?_⟩
  rw [show (resolve_keysend ⟨fun _ => .raise, 10⟩ "a@b@c").2
    = [⟨"GET", .str "https://b@c/.well-known/keysend/a", none, 10⟩] from rfl]
  exact List.cons_ne_nil _ _

/-- Amended C6: resolution proceeds past parsing (the transport is invoked)
exactly when the address contains at least one `@`; the split happens at the
first `@`, so the domain part may itself contain further `@` characters. -/
theorem proceeds_iff_contains_at (p : LightningAddressProvider)
    (addr : String) (a : Int) (nm msg : String) :
    ((resolve_keysend p addr).2 ≠ [] ↔ containsAt addr = true) ∧
    ((resolve_lnurlp p addr a nm msg).2 ≠ [] ↔ containsAt addr = true) := by
  cases hc : containsAt addr with
  | false =>
    constructor
    · simp [resolve_keysend, hc]
    · simp [resolve_lnurlp, hc]
  | true =>
    constructor
    · rw [resolve_keysend_trace p addr hc]
      simp
    · obtain ⟨rest, hr⟩ := resolve_lnurlp_trace_cons p addr a nm msg hc
      rw [hr]
      simp

/-- Witness for the amended C6 at the two-`@` address. -/
theorem proceeds_iff_contains_at_witness :
    ((resolve_keysend ⟨fun _ => .raise, 10⟩ "a@b@c").2 ≠ []
      ↔ containsAt "a@b@c" = true) ∧
    ((resolve_lnurlp ⟨fun _ => .raise, 10⟩ "a@b@c" 1 "n" "m").2 ≠ []
      ↔ containsAt "a@b@c" = true) :=
  proceeds_iff_contains_at ⟨fun _ => .raise, 10⟩ "a@b@c" 1 "n" "m"

/-- Claim C7: for every keysend discovery body that is a JSON object, the
result is populated exactly when the `status` field is the string `OK` and
the `tag` field is the string `keysend`; the populated result carries the
body's `pubkey` field (`null` when absent) and its `customData` field
(defaulting to the empty sequence when absent). -/
theorem keysend_validation (fs : List (String × Json)) :
    resolve_keysend ⟨constTransport (.obj fs), 10⟩ "u@d"
      = (.ok (if pyEqStr (objGetD fs "status" .null) "OK"
              && pyEqStr (objGetD fs "tag" .null) "keysend"
            then some ⟨objGetD fs "pubkey" .null,
                       objGetD fs "customData" (.arr [])⟩
            else none),
         [keysendCall ⟨constTransport (.obj fs), 10⟩ "u@d"]) := by
  have h1 : (resolve_keysend ⟨constTransport (.obj fs), 10⟩ "u@d")
      = (keysendFromJson (.obj fs),
         [keysendCall ⟨constTransport (.obj fs), 10⟩ "u@d"]) := rfl
  rw [h1]
  unfold keysendFromJson
  cases hs : pyEqStr (objGetD fs "status" .null) "OK" with
  | false => simp [hs]
  | true =>
    cases ht : pyEqStr (objGetD fs "tag" .null) "keysend" with
    | false => simp [hs, ht]
    | true => simp [hs, ht]

/-- Counterexample to claim C1: a transport returning the body `1` — valid
JSON, but not an object — makes `resolve_keysend` raise `AttributeError`
(Python `data.get` on an `int`), which propagates to the caller instead of
becoming the `none` sentinel. -/
theorem nonobject_json_body_raises :
    (resolve_keysend ⟨fun _ => .ok "1" (.ok (.int 1)), 10⟩ "a@b").1
      = .error .attributeError := rfl

/-- Amended C1: for every input and every transport behaviour whose
successfully parsed JSON bodies are well-shaped (`SafeBody`: objects whose
`minSendable`/`maxSendable` are numeric when present and whose `payerData`,
when present, is an object with numeric `commentAllowed`), both operations
convert every recoverable failure — raised transport errors, empty or
whitespace bodies, JSON decode failures, missing or mismatched fields,
out-of-range amounts — to the `none` sentinel and never propagate a raised
exception; for bodies outside that shape the code can raise. -/
theorem no_raise_for_wellshaped_bodies (T : HttpCall → TransportResult)
    (tmo : Int) (addr : String) (a : Int) (nm msg : String)
    (hT : ∀ c t j, T c = .ok t (.ok j) → SafeBody j) :
    (∃ r, (resolve_keysend ⟨T, tmo⟩ addr).1 = .ok r) ∧
    (∃ r, (resolve_lnurlp ⟨T, tmo⟩ addr a nm msg).1 = .ok r) := by
  have objOf : ∀ j, SafeBody j → ∃ fs, j = Json.obj fs := by
    intro j hj
    obtain ⟨fs, hfs, -⟩ := hj
    exact ⟨fs, hfs⟩
  constructor
  · unfold resolve_keysend
    cases hc : containsAt addr with
    | false => exact ⟨none, by simp⟩
    | true =>
      cases hpb : parseBody (T (keysendCall ⟨T, tmo⟩ addr)) with
      | none => exact ⟨none, by simp [hc, hpb]⟩
      | some data =>
        obtain ⟨s, hs⟩ := parseBody_eq_some hpb
        obtain ⟨fs, hfs⟩ := objOf data (hT _ _ _ hs)
        obtain ⟨r, hr⟩ := keysendFromJson_obj_ok fs
        exact ⟨r, by simp [hc, hpb, hfs, hr]⟩
  · unfold resolve_lnurlp
    cases hc : containsAt addr with
    | false => exact ⟨none, by simp⟩
    | true =>
      cases hpb : parseBody (T (lnurlpDiscoveryCall ⟨T, tmo⟩ addr)) with
      | none => exact ⟨none, by simp [hc, hpb]⟩
      | some data =>
        obtain ⟨s, hs⟩ := parseBody_eq_some hpb
        obtain ⟨r1, hr1⟩ := lnurlpFromJson_ok data a nm msg (hT _ _ _ hs)
        cases hro : r1 with
        | none => exact ⟨none, by simp [hc, hpb, hr1, hro]⟩
        | some pr =>
          obtain ⟨cb, ps⟩ := pr
          rw [hro] at hr1
          cases hpb2 : parseBody (T (lnurlpCallbackCall ⟨T, tmo⟩ cb ps)) with
          | none => exact ⟨none, by simp [hc, hpb, hr1, hpb2]⟩
          | some cbd =>
            obtain ⟨s2, hs2⟩ := parseBody_eq_some hpb2
            obtain ⟨fs2, hfs2⟩ := objOf cbd (hT _ _ _ hs2)
            obtain ⟨r2, hr2⟩ := prFromJson_obj_ok fs2
            exact ⟨r2, by simp [hc, hpb, hr1, hpb2, hfs2, hr2]⟩

/-- Witness for the amended C1: a transport always answering with the empty
JSON object satisfies the shape hypothesis, and both flows return without
raising. -/
theorem no_raise_for_wellshaped_bodies_witness :
    (∃ r, (resolve_keysend ⟨constTransport (.obj []), 10⟩ "u@d").1
      = .ok r) ∧
    (∃ r, (resolve_lnurlp ⟨constTransport (.obj []), 10⟩ "u@d" 5 "n" "m").1
      = .ok r) :=
  no_raise_for_wellshaped_bodies (constTransport (.obj [])) 10 "u@d" 5 "n" "m"
    (by
      intro c t j h
      cases h
      refine ⟨[], rfl, ?_, ?_, ?_⟩
      · intro x hx
        simp [objLookup] at hx
      · intro x hx
        simp [objLookup] at hx
      · intro x hx
        simp [objLookup] at hx)

/-- Running the lnurlp flow against the canned stub: a successful
validation/params step leads to the callback and the stub invoice. -/
theorem resolve_lnurlp_stub_success (d : Json) (a : Int) (nm msg : String)
    (cb : Json) (ps : CallbackParams)
    (h : lnurlpFromJson d a nm msg = .ok (some (cb, ps))) :
    resolve_lnurlp ⟨stubTransport d, 10⟩ "u@d" a nm msg
      = (.ok (some ⟨.str "inv"⟩),
         [⟨"GET", .str "https://d/.well-known/lnurlp/u", none, 10⟩,
          ⟨"GET", cb, some ps, 10⟩]) := by
  have hc : containsAt "u@d" = true := rfl
  have hpb : parseBody (stubTransport d
      (lnurlpDiscoveryCall ⟨stubTransport d, 10⟩ "u@d")) = some d := rfl
  have hpb2 : parseBody (stubTransport d
      (lnurlpCallbackCall ⟨stubTransport d, 10⟩ cb ps))
      = some (.obj [("pr", .str "inv")]) := rfl
  simp only [resolve_lnurlp, hc, Bool.true_eq_false, if_false, hpb, h, hpb2]
  rfl

/-- Running the lnurlp flow against the canned stub: a short-circuiting
validation step returns `none` after the single discovery request. -/
theorem resolve_lnurlp_stub_none (d : Json) (a : Int) (nm msg : String)
    (h : lnurlpFromJson d a nm msg = .ok none) :
    resolve_lnurlp ⟨stubTransport d, 10⟩ "u@d" a nm msg
      = (.ok none,
         [⟨"GET", .str "https://d/.well-known/lnurlp/u", none, 10⟩]) := by
  have hc : containsAt "u@d" = true := rfl
  have hpb : parseBody (stubTransport d
      (lnurlpDiscoveryCall ⟨stubTransport d, 10⟩ "u@d")) = some d := rfl
  simp only [resolve_lnurlp, hc, Bool.true_eq_false, if_false, hpb, h]
  rfl

/-- Validation/params step on a discovery body declaring both bounds, with
empty sender name and message: success exactly on the inclusive range. -/
theorem lnurlpFromJson_bounded (m M a : Int) :
    lnurlpFromJson (boundedDiscovery m M) a "" ""
      = .ok (if m ≤ a ∧ a ≤ M
          then some (.str "https://x/cb", ⟨a, none, none⟩) else none) := by
  by_cases h1 : a < m
  · have hval : lnurlpFromJson (boundedDiscovery m M) a "" "" = .ok none := by
      simp [lnurlpFromJson, boundedDiscovery, objGetD, objLookup, pyEqStr,
        pyTruthy, lnurlpBoundsOk, pyLtJson, jsonAsNum, h1]
    rw [hval, if_neg (by omega)]
  · by_cases h2 : M < a
    · have hval : lnurlpFromJson (boundedDiscovery m M) a "" "" = .ok none := by
        simp [lnurlpFromJson, boundedDiscovery, objGetD, objLookup, pyEqStr,
          pyTruthy, lnurlpBoundsOk, pyLtJson, pyGtJson, jsonAsNum, h1, h2]
      rw [hval, if_neg (by omega)]
    · have hval : lnurlpFromJson (boundedDiscovery m M) a "" ""
          = .ok (some (.str "https://x/cb", ⟨a, none, none⟩)) := by
        simp [lnurlpFromJson, boundedDiscovery, objGetD, objLookup, pyEqStr,
          pyTruthy, lnurlpBoundsOk, pyLtJson, pyGtJson, jsonAsNum,
          lnurlpNameParam, lnurlpCommentParam, h1, h2]
      rw [hval, if_pos ⟨by omega, by omega⟩]

/-- Validation step on a bounded discovery body when the amount is out of
range: `None` before any callback parameters are even considered. -/
theorem lnurlpFromJson_bounded_out (m M a : Int) (nm msg : String)
    (hout : a < m ∨ M < a) :
    lnurlpFromJson (boundedDiscovery m M) a nm msg = .ok none := by
  by_cases h1 : a < m
  · simp [lnurlpFromJson, boundedDiscovery, objGetD, objLookup, pyEqStr,
      pyTruthy, lnurlpBoundsOk, pyLtJson, jsonAsNum, h1]
  · have h2 : M < a := by omega
    simp [lnurlpFromJson, boundedDiscovery, objGetD, objLookup, pyEqStr,
      pyTruthy, lnurlpBoundsOk, pyLtJson, pyGtJson, jsonAsNum, h1, h2]

/-- Claim C2: against a discovery body declaring `minSendable = m` and
`maxSendable = M`, the amount check is inclusive — amounts `m` and `M`
resolve to the stub invoice, while `m - 1` and `M + 1` yield `none`. -/
theorem lnurlp_amount_bounds_inclusive (m M : Int) (h : m ≤ M) :
    (resolve_lnurlp ⟨stubTransport (boundedDiscovery m M), 10⟩
        "u@d" m "" "").1 = .ok (some ⟨.str "inv"⟩) ∧
    (resolve_lnurlp ⟨stubTransport (boundedDiscovery m M), 10⟩
        "u@d" M "" "").1 = .ok (some ⟨.str "inv"⟩) ∧
    (resolve_lnurlp ⟨stubTransport (boundedDiscovery m M), 10⟩
        "u@d" (m - 1) "" "").1 = .ok none ∧
    (resolve_lnurlp ⟨stubTransport (boundedDiscovery m M), 10⟩
        "u@d" (M + 1) "" "").1 = .ok none := by
  refine ⟨?_, ?_, ?_, ?_⟩
  · rw [resolve_lnurlp_stub_success (boundedDiscovery m M) m "" ""
      (.str "https://x/cb") ⟨m, none, none⟩
      (by rw [lnurlpFromJson_bounded, if_pos ⟨by omega, by omega⟩])]
  · rw [resolve_lnurlp_stub_success (boundedDiscovery m M) M "" ""
      (.str "https://x/cb") ⟨M, none, none⟩
      (by rw [lnurlpFromJson_bounded, if_pos ⟨by omega, by omega⟩])]
  · rw [resolve_lnurlp_stub_none (boundedDiscovery m M) (m - 1) "" ""
      (by rw [lnurlpFromJson_bounded, if_neg (by omega)])]
  · rw [resolve_lnurlp_stub_none (boundedDiscovery m M) (M + 1) "" ""
      (by rw [lnurlpFromJson_bounded, if_neg (by omega)])]

/-- Witness for C2 at the spec's bounds `[1000, 500000]`. -/
theorem lnurlp_amount_bounds_inclusive_witness :
    (resolve_lnurlp ⟨stubTransport (boundedDiscovery 1000 500000), 10⟩
        "u@d" 1000 "" "").1 = .ok (some ⟨.str "inv"⟩) ∧
    (resolve_lnurlp ⟨stubTransport (boundedDiscovery 1000 500000), 10⟩
        "u@d" 500000 "" "").1 = .ok (some ⟨.str "inv"⟩) ∧
    (resolve_lnurlp ⟨stubTransport (boundedDiscovery 1000 500000), 10⟩
        "u@d" 999 "" "").1 = .ok none ∧
    (resolve_lnurlp ⟨stubTransport (boundedDiscovery 1000 500000), 10⟩
        "u@d" 500001 "" "").1 = .ok none := by
  have h := lnurlp_amount_bounds_inclusive 1000 500000 (by omega)
  simpa using h

/-- Claim C8: whenever the requested amount is outside the inclusive declared
range, the flow returns `none` after exactly one transport request — the
callback is never issued, whatever the transport would have answered. -/
theorem lnurlp_out_of_range_single_call (m M a : Int)
    (T : HttpCall → TransportResult) (tmo : Int) (nm msg : String)
    (hT : T ⟨"GET", .str "https://domain/.well-known/lnurlp/user", none, tmo⟩
      = .ok "x" (.ok (boundedDiscovery m M)))
    (hout : a < m ∨ M < a) :
    resolve_lnurlp ⟨T, tmo⟩ "user@domain" a nm msg
      = (.ok none,
         [⟨"GET", .str "https://domain/.well-known/lnurlp/user", none,
           tmo⟩]) := by
  have hc : containsAt "user@domain" = true := rfl
  have hcall : lnurlpDiscoveryCall ⟨T, tmo⟩ "user@domain"
      = ⟨"GET", .str "https://domain/.well-known/lnurlp/user", none, tmo⟩ :=
    rfl
  have hpb : parseBody (T (lnurlpDiscoveryCall ⟨T, tmo⟩ "user@domain"))
      = some (boundedDiscovery m M) := by
    rw [hcall, hT]
    rfl
  rw [hcall] at hpb
  simp only [resolve_lnurlp, hc, Bool.true_eq_false, if_false, hcall, hpb,
    lnurlpFromJson_bounded_out m M a nm msg hout]

/-- Witness for C8 at the spec's scenario: bounds `[1000, 500000]`, requested
amount `999`. -/
theorem lnurlp_out_of_range_single_call_witness :
    resolve_lnurlp ⟨stubTransport (boundedDiscovery 1000 500000), 10⟩
        "user@domain" 999 "n" "m"
      = (.ok none,
         [⟨"GET", .str "https://domain/.well-known/lnurlp/user", none,
           10⟩]) :=
  lnurlp_out_of_range_single_call 1000 500000 999
    (stubTransport (boundedDiscovery 1000 500000)) 10 "n" "m" rfl
    (Or.inl (by omega))

/-- Validation/params step on a discovery body declaring
`payerData.commentAllowed = N`: the comment parameter is present exactly when
the message is non-empty and `N > 0`, and is the message cut to its first `N`
characters. -/
theorem lnurlpFromJson_comment (N : Int) (msg : String) :
    lnurlpFromJson (payerDiscovery [("commentAllowed", .int N)]) 2000 "" msg
      = .ok (some (.str "https://x/cb",
          ⟨2000, none,
           if msg ≠ "" ∧ 0 < N then some ⟨msg.data.take N.toNat⟩
           else none⟩)) := by
  by_cases hm : msg = ""
  · simp [lnurlpFromJson, payerDiscovery, objGetD, objLookup, pyEqStr,
      pyTruthy, lnurlpBoundsOk, pyLtJson, jsonAsNum, lnurlpNameParam,
      lnurlpCommentParam, hm]
  · by_cases hN : 0 < N
    · simp [lnurlpFromJson, payerDiscovery, objGetD, objLookup, pyEqStr,
        pyTruthy, lnurlpBoundsOk, pyLtJson, jsonAsNum, lnurlpNameParam,
        lnurlpCommentParam, pyGtZero, pySliceStr, hm, hN]
    · simp [lnurlpFromJson, payerDiscovery, objGetD, objLookup, pyEqStr,
        pyTruthy, lnurlpBoundsOk, pyLtJson, jsonAsNum, lnurlpNameParam,
        lnurlpCommentParam, pyGtZero, hm, hN]

/-- Claim C3: with `payerData.commentAllowed = N` declared by discovery, the
callback request carries a comment exactly when the message is non-empty and
`N > 0`; the comment is the message's first `N` characters, messages of
length at most `N` pass unmodified, and an over-length message never causes
an error — the flow completes with the stub invoice. -/
theorem lnurlp_comment_truncation (N : Int) (msg : String) :
    resolve_lnurlp
        ⟨stubTransport (payerDiscovery [("commentAllowed", .int N)]), 10⟩
        "u@d" 2000 "" msg
      = (.ok (some ⟨.str "inv"⟩),
         [⟨"GET", .str "https://d/.well-known/lnurlp/u", none, 10⟩,
          ⟨"GET", .str "https://x/cb",
           some ⟨2000, none,
             if msg ≠ "" ∧ 0 < N then some ⟨msg.data.take N.toNat⟩
             else none⟩, 10⟩]) ∧
    (msg.data.length ≤ N.toNat → (⟨msg.data.take N.toNat⟩ : String) = msg)
    := by
  constructor
  · exact resolve_lnurlp_stub_success _ 2000 "" msg _ _
      (lnurlpFromJson_comment N msg)
  · intro hlen
    rw [List.take_of_length_le hlen]

/-- Witness for C3: `commentAllowed = 5` with the spec's message
`hello world` truncates to `hello`; the shorter message `hi` passes
unmodified. -/
theorem lnurlp_comment_truncation_witness :
    resolve_lnurlp
        ⟨stubTransport (payerDiscovery [("commentAllowed", .int 5)]), 10⟩
        "u@d" 2000 "" "hello world"
      = (.ok (some ⟨.str "inv"⟩),
         [⟨"GET", .str "https://d/.well-known/lnurlp/u", none, 10⟩,
          ⟨"GET", .str "https://x/cb",
           some ⟨2000, none, some "hello"⟩, 10⟩]) ∧
    resolve_lnurlp
        ⟨stubTransport (payerDiscovery [("commentAllowed", .int 5)]), 10⟩
        "u@d" 2000 "" "hi"
      = (.ok (some ⟨.str "inv"⟩),
         [⟨"GET", .str "https://d/.well-known/lnurlp/u", none, 10⟩,
          ⟨"GET", .str "https://x/cb",
           some ⟨2000, none, some "hi"⟩, 10⟩]) :=
  ⟨(lnurlp_comment_truncation 5 "hello world").1,
   (lnurlp_comment_truncation 5 "hi").1⟩

/-- Validation/params step on a discovery body with a `payerData` object:
the name parameter is present exactly when the sender name is non-empty and
`payerData` has a `name` key, and then equals the sender name. -/
theorem lnurlpFromJson_name (sender : String) (pd : List (String × Json)) :
    lnurlpFromJson (payerDiscovery pd) 2000 sender ""
      = .ok (some (.str "https://x/cb",
          ⟨2000,
           if sender ≠ "" ∧ pd.any (fun p => p.1 == "name") = true
           then some sender else none,
           none⟩)) := by
  by_cases hs : sender = ""
  · simp [lnurlpFromJson, payerDiscovery, objGetD, objLookup, pyEqStr,
      pyTruthy, lnurlpBoundsOk, pyLtJson, jsonAsNum, lnurlpNameParam,
      lnurlpCommentParam, hs]
  · by_cases hn : pd.any (fun p => p.1 == "name") = true
    · simp [lnurlpFromJson, payerDiscovery, objGetD, objLookup, pyEqStr,
        pyTruthy, lnurlpBoundsOk, pyLtJson, jsonAsNum, lnurlpNameParam,
        lnurlpCommentParam, pyContains, hs, hn]
    · simp [lnurlpFromJson, payerDiscovery, objGetD, objLookup, pyEqStr,
        pyTruthy, lnurlpBoundsOk, pyLtJson, jsonAsNum, lnurlpNameParam,
        lnurlpCommentParam, pyContains, hs, hn]

/-- Claim C4: for every discovery response passing the tag/callback/amount
checks, the callback request carries the `name` parameter exactly when the
sender name is non-empty and the `payerData` object declares a `name` key;
when present, the parameter equals the sender name. -/
theorem lnurlp_name_param (sender : String) (pd : List (String × Json)) :
    resolve_lnurlp ⟨stubTransport (payerDiscovery pd), 10⟩
        "u@d" 2000 sender ""
      = (.ok (some ⟨.str "inv"⟩),
         [⟨"GET", .str "https://d/.well-known/lnurlp/u", none, 10⟩,
          ⟨"GET", .str "https://x/cb",
           some ⟨2000,
             if sender ≠ "" ∧ pd.any (fun p => p.1 == "name") = true
             then some sender else none,
             none⟩, 10⟩]) :=
  resolve_lnurlp_stub_success _ 2000 sender "" _ _
    (lnurlpFromJson_name sender pd)

/-- Claim C10: for every address `u ++ "@" ++ d` with `@`-free `u` (while `d`
may contain more `@`s), the discovery URL of each flow inserts `d` and `u`
verbatim into `https://{domain}/.well-known/{proto}/{username}` — no
percent-encoding, validation or normalization. -/
theorem discovery_url_verbatim (u d : String)
    (T : HttpCall → TransportResult) (tmo a : Int) (nm msg : String)
    (h : containsAt u = false) :
    (resolve_keysend ⟨T, tmo⟩ (u ++ "@" ++ d)).2
      = [⟨"GET", .str ("https://" ++ d ++ "/.well-known/keysend/" ++ u),
          none, tmo⟩] ∧
    (resolve_lnurlp ⟨T, tmo⟩ (u ++ "@" ++ d) a nm msg).2.head?
      = some ⟨"GET", .str ("https://" ++ d ++ "/.well-known/lnurlp/" ++ u),
          none, tmo⟩ := by
  have hc := containsAt_append u d
  have hs := splitFirstAt_append u d h
  constructor
  · rw [resolve_keysend_trace ⟨T, tmo⟩ (u ++ "@" ++ d) hc]
    simp [keysendCall, hs]
  · obtain ⟨rest, hr⟩ :=
      resolve_lnurlp_trace_cons ⟨T, tmo⟩ (u ++ "@" ++ d) a nm msg hc
    rw [hr]
    simp [lnurlpDiscoveryCall, hs]

/-- Witness for C10: a username with a space and a domain containing `/`,
`?` and a second `@` all appear verbatim in the requested URLs. -/
theorem discovery_url_verbatim_witness :
    (resolve_keysend ⟨fun _ => .raise, 10⟩ ("b c" ++ "@" ++ "host/x?y@z")).2
      = [⟨"GET",
          .str ("https://" ++ "host/x?y@z" ++ "/.well-known/keysend/"
            ++ "b c"), none, 10⟩] ∧
    (resolve_lnurlp ⟨fun _ => .raise, 10⟩ ("b c" ++ "@" ++ "host/x?y@z")
        1 "n" "m").2.head?
      = some ⟨"GET",
          .str ("https://" ++ "host/x?y@z" ++ "/.well-known/lnurlp/"
            ++ "b c"), none, 10⟩ :=
  discovery_url_verbatim "b c" "host/x?y@z" (fun _ => .raise) 10 1 "n" "m"
    (by decide)
